import Mathlib

/-!
Verification of the ShortVideo storyboard creator.

Shallow embedding of the three source files:
* `src/App.tsx` — topic mode: typed topic + scene count, speech-synthesis
  (utterance-chaining) playback;
* `src/unnamed/part_000` — audio mode: uploaded script/audio files,
  time-division playback synchronized to an audio element;
* `src/services/geminiService.ts` — the script/image generation service
  wrappers.

Remote API calls, JSON parsing and file reads are modelled as oracles
(explicit parameters); JavaScript numbers that only ever hold integers are
modelled as `Int` (JS `%` is truncated remainder, `Int.tmod`), and playback
times/durations as `Rat`.
-/

namespace ShortVideo

/-- Scene record from `src/types` (part of `App.tsx`'s related docs):
`{ id, imagePrompt, narratorScript, imageUrl }` with nullable `imageUrl`. -/
structure Scene where
  id : Nat
  imagePrompt : String
  narratorScript : String
  imageUrl : Option String
deriving Repr, DecidableEq

/-- One entry of the script-generation response
(`ScriptData.scenes` element: `{ image_prompt, narrator_script }`). -/
structure ScriptEntry where
  image_prompt : String
  narrator_script : String
deriving Repr, DecidableEq

instance exceptDecEq (ε α : Type) [DecidableEq ε] [DecidableEq α] :
    DecidableEq (Except ε α) := fun x y =>
  match x, y with
  | .ok a, .ok b =>
      if h : a = b then isTrue (h ▸ rfl)
      else isFalse (fun hc => h (by injection hc))
  | .ok _, .error _ => isFalse (fun hc => Except.noConfusion hc)
  | .error _, .ok _ => isFalse (fun hc => Except.noConfusion hc)
  | .error e, .error f =>
      if h : e = f then isTrue (h ▸ rfl)
      else isFalse (fun hc => h (by injection hc))

/-- React state of the topic-mode app (`src/App.tsx` lines 8–16).
`topic` and `sceneCount` are passed separately where needed. -/
structure AppState where
  scenes : List Scene
  isLoading : Bool
  error : Option String
  currentSceneIndex : Int
  isPlaying : Bool
  regeneratingSceneId : Option Nat
deriving Repr, DecidableEq

/-- `scriptData.scenes.map((s, index) => ({ id: index, imagePrompt: s.image_prompt,
narratorScript: s.narrator_script, imageUrl: null }))` (`App.tsx` 72–77),
with the running index made explicit. -/
def mkScenes (start : Nat) : List ScriptEntry → List Scene
  | [] => []
  | e :: rest =>
      { id := start, imagePrompt := e.image_prompt,
        narratorScript := e.narrator_script, imageUrl := none } :: mkScenes (start + 1) rest

/-- `prevScenes.map(s => (s.id === i ? { ...s, imageUrl } : s))` (`App.tsx` 83–85). -/
def patchImage (scenes : List Scene) (i : Nat) (url : String) : List Scene :=
  scenes.map (fun sc => if sc.id = i then { sc with imageUrl := some url } else sc)

/-- The sequential image loop of `handleGenerate` (`App.tsx` 80–86), with the
image-generation call given as an oracle `img` (index ↦ result of
`generateImage`). Structural recursion on the number of remaining scenes;
an error aborts the loop and lands in the `catch` branch, which sets the
error message (`App.tsx` 87–88). -/
def genImagesLoop (img : Nat → Except String String) (i : Nat) (s : AppState) :
    Nat → AppState
  | 0 => s
  | rem + 1 =>
      match img i with
      | .error msg => { s with error := some msg }
      | .ok url =>
          genImagesLoop img (i + 1) { s with scenes := patchImage s.scenes i url } rem

/-- JS `String.prototype.trim`, modelled over the character list so it
reduces in the kernel. -/
def jsTrim (s : String) : String :=
  String.mk (((s.data.dropWhile Char.isWhitespace).reverse.dropWhile
    Char.isWhitespace).reverse)

/-- Split a character list at newline characters (JS `split('\n')`). -/
def jsSplitNlAux (acc : List Char) : List Char → List String
  | [] => [String.mk acc.reverse]
  | c :: cs =>
      if c = '\n' then String.mk acc.reverse :: jsSplitNlAux [] cs
      else jsSplitNlAux (c :: acc) cs

/-- JS `s.split('\n')`. -/
def jsSplitNl (s : String) : List String :=
  jsSplitNlAux [] s.data

/-- Character-list helper for JS `String.prototype.startsWith`. -/
def jsStartsWithAux : List Char → List Char → Bool
  | _, [] => true
  | [], _ :: _ => false
  | c :: cs, d :: ds => c = d && jsStartsWithAux cs ds

/-- JS `s.startsWith(p)`. -/
def jsStartsWith (s p : String) : Bool :=
  jsStartsWithAux s.data p.data

/-- Error message for an empty topic (`App.tsx` 58). -/
def topicEmptyMsg : String := "トピックを入力してください。"

/-- `handleGenerate` (`App.tsx` 56–93) as a state transformer. The
`generateScript(topic, sceneCount)` call is the oracle `script`; `topic` and
`sceneCount` only shape the request prompt (`geminiService.ts` 41–45) and the
response is never validated against `sceneCount`, so the parameter appears
nowhere on the right-hand side. The per-scene `generateImage` calls are the
oracle `img`. -/
def handleGenerate (s : AppState) (topic : String) (sceneCount : Nat)
    (script : Except String (List ScriptEntry))
    (img : Nat → Except String String) : AppState :=
  if jsTrim topic = "" then { s with error := some topicEmptyMsg }
  else
    let s1 : AppState :=
      { s with isLoading := true, error := none, scenes := [],
               currentSceneIndex := 0, isPlaying := false }
    let s2 : AppState :=
      match script with
      | .error msg => { s1 with error := some msg }
      | .ok entries =>
          let initialScenes := mkScenes 0 entries
          genImagesLoop img 0 { s1 with scenes := initialScenes } initialScenes.length
    { s2 with isLoading := false }

/-! ### Topic-mode navigation, speech playback and editor (`src/App.tsx`) -/

/-- JS array indexing `scenes[i]` on a possibly out-of-range (or negative)
index: `undefined` becomes `none`. -/
def sceneAt (scenes : List Scene) (i : Int) : Option Scene :=
  if 0 ≤ i then scenes[i.toNat]? else none

/-- `nextScene` (`App.tsx` 107–112): stop playback, then
`(prev + 1) % scenes.length` (JS `%` = `Int.tmod`). -/
def nextSceneTopic (s : AppState) : AppState :=
  let s1 : AppState := { s with isPlaying := false }
  if s1.scenes.length = 0 then s1
  else
    { s1 with currentSceneIndex :=
        Int.tmod (s1.currentSceneIndex + 1) (s1.scenes.length : Int) }

/-- `prevScene` (`App.tsx` 114–119): stop playback, then
`(prev - 1 + scenes.length) % scenes.length`. -/
def prevSceneTopic (s : AppState) : AppState :=
  let s1 : AppState := { s with isPlaying := false }
  if s1.scenes.length = 0 then s1
  else
    { s1 with currentSceneIndex :=
        (Int.tmod (s1.currentSceneIndex - 1 + (s1.scenes.length : Int))
          (s1.scenes.length : Int)) }

/-- Guard under which the speech-synthesis effect actually speaks
(`App.tsx` 20): `isPlaying && scenes.length > 0 && scenes[currentSceneIndex]`. -/
def speechActive (s : AppState) : Prop :=
  s.isPlaying = true ∧ 0 < s.scenes.length ∧ (sceneAt s.scenes s.currentSceneIndex).isSome = true

instance (s : AppState) : Decidable (speechActive s) := by
  unfold speechActive; infer_instance

/-- `utterance.onend` (`App.tsx` 26–32): advance if not at the last scene,
otherwise stop playback. -/
def utteranceOnEnd (s : AppState) : AppState :=
  if s.currentSceneIndex < (s.scenes.length : Int) - 1 then
    { s with currentSceneIndex := s.currentSceneIndex + 1 }
  else
    { s with isPlaying := false }

/-- `utterance.onerror` (`App.tsx` 34–37): stop playback. -/
def utteranceOnError (s : AppState) : AppState :=
  { s with isPlaying := false }

/-- JS `array.map((x, i) => f i x)` over scenes, the running index made
explicit (used by both apps' editor handlers). -/
def mapSceneIdx (f : Int → Scene → Scene) : Int → List Scene → List Scene
  | _, [] => []
  | i, sc :: rest => f i sc :: mapSceneIdx f (i + 1) rest

/-- `prev.map((s, i) => i === currentSceneIndex ? { ...s, narratorScript: newScript } : s)`
(`App.tsx` 121–124 and `part_000` 164–167, identical in both files). -/
def editNarration (scenes : List Scene) (cur : Int) (v : String) : List Scene :=
  mapSceneIdx (fun i sc => if i = cur then { sc with narratorScript := v } else sc) 0 scenes

/-- `prev.map((s, i) => i === currentSceneIndex ? { ...s, imagePrompt: newPrompt } : s)`
(`App.tsx` 126–129 and `part_000` 169–172, identical in both files). -/
def editPrompt (scenes : List Scene) (cur : Int) (v : String) : List Scene :=
  mapSceneIdx (fun i sc => if i = cur then { sc with imagePrompt := v } else sc) 0 scenes

/-- `handleScriptChange` (`App.tsx` 121–124). -/
def handleScriptChange (s : AppState) (v : String) : AppState :=
  { s with scenes := editNarration s.scenes s.currentSceneIndex v }

/-- `handlePromptChange` (`App.tsx` 126–129). -/
def handlePromptChange (s : AppState) (v : String) : AppState :=
  { s with scenes := editPrompt s.scenes s.currentSceneIndex v }

/-! ### Audio-mode app (`src/unnamed/part_000`) -/

/-- An uploaded `File` as the handlers see it: name and MIME type. -/
structure FileInfo where
  name : String
  mimeType : String
deriving Repr, DecidableEq

/-- The mounted `<audio>` element: playback position and duration.
`duration = none` models `NaN`/`Infinity` (metadata not yet loaded or a
non-finite duration), so `duration && isFinite(duration)` is
`duration = some d` with `d ≠ 0`. -/
structure AudioEl where
  currentTime : Rat
  duration : Option Rat
deriving Repr, DecidableEq

/-- React state of the audio-mode app (`part_000` 8–20), together with the
two refs: `audioRef` (`none` until the element is mounted, i.e. until
`audioUrl` is set and rendered) and `sceneDurationRef` (initially 0).
Every value ever written to `sceneDurationRef` is a finite number
(0, or `duration / scenes.length` with a finite nonzero duration), so it is
modelled as `Rat` and the source's `isFinite(sceneDurationRef.current)`
guard is identically true. -/
structure AudioState where
  scriptFile : Option FileInfo
  audioFile : Option FileInfo
  audioUrl : Option String
  audioRef : Option AudioEl
  sceneDuration : Rat
  scenes : List Scene
  isLoading : Bool
  error : Option String
  currentSceneIndex : Int
  isPlaying : Bool
  regeneratingSceneId : Option Nat
deriving Repr, DecidableEq

/-- Error message for a non-text script file (`part_000` 50). -/
def scriptFileTypeMsg : String := "有効なテキストファイル（.txt）を選択してください。"

/-- Error message for a non-audio file (`part_000` 62). -/
def audioFileTypeMsg : String := "有効な音声ファイルを選択してください。"

/-- Error message when a file is missing (`part_000` 68). -/
def bothFilesMsg : String := "テキストファイルと音声ファイルの両方をアップロードしてください。"

/-- Error message for an empty script file (`part_000` 84). -/
def emptyScriptMsg : String := "スクリプトファイルが空か、内容がありません。"

/-- `handleScriptFileChange` (`part_000` 42–52): the selected file (or none)
is accepted only with MIME type exactly `text/plain`; otherwise the stored
file is cleared (and the DOM file input reset) and a message is set. -/
def handleScriptFileChange (s : AudioState) (file : Option FileInfo) : AudioState :=
  match file with
  | some f =>
      if f.mimeType = "text/plain" then { s with scriptFile := some f, error := none }
      else { s with scriptFile := none, error := some scriptFileTypeMsg }
  | none => { s with scriptFile := none, error := some scriptFileTypeMsg }

/-- `handleAudioFileChange` (`part_000` 54–64): accepted only when the MIME
type starts with `audio/`. -/
def handleAudioFileChange (s : AudioState) (file : Option FileInfo) : AudioState :=
  match file with
  | some f =>
      if jsStartsWith f.mimeType "audio/" then { s with audioFile := some f, error := none }
      else { s with audioFile := none, error := some audioFileTypeMsg }
  | none => { s with audioFile := none, error := some audioFileTypeMsg }

/-- `if (audioRef.current) audioRef.current.currentTime = t` — a no-op when
no audio element is mounted. -/
def setAudioTime (s : AudioState) (t : Rat) : AudioState :=
  match s.audioRef with
  | none => s
  | some a => { s with audioRef := some { a with currentTime := t } }

/-- The board reset performed at the start of `handleCreateStoryboard`
(`part_000` 71–76): loading on, error cleared, board emptied, playback
stopped, audio position rewound. -/
def resetBoard (t : AudioState) : AudioState :=
  setAudioTime
    { t with isLoading := true, error := none, scenes := [],
             currentSceneIndex := 0, isPlaying := false } 0

/-- `scriptContent.split('\n').filter(line => line.trim() !== '')`
(`part_000` 81). -/
def splitLines (content : String) : List String :=
  (jsSplitNl content).filter (fun line => ¬ jsTrim line = "")

/-- `scriptLines.map((line, index) => ({ id: index, imagePrompt: '',
narratorScript: line, imageUrl: null }))` (`part_000` 87–92). -/
def mkScenesFromLines (start : Nat) : List String → List Scene
  | [] => []
  | line :: rest =>
      { id := start, imagePrompt := "", narratorScript := line, imageUrl := none }
        :: mkScenesFromLines (start + 1) rest

/-- `prevScenes.map(s => (s.id === i ? { ...s, imagePrompt: prompt } : s))`
(`part_000` 101–103). -/
def patchPrompt (scenes : List Scene) (i : Nat) (p : String) : List Scene :=
  scenes.map (fun sc => if sc.id = i then { sc with imagePrompt := p } else sc)

/-- The per-scene loop of `handleCreateStoryboard` (`part_000` 98–110):
for each scene, a prompt-generation call (`pr`) then an image-generation
call (`img`), each patching the scene by id. A thrown error lands in the
`catch` branch (`part_000` 111–113), which sets the message and discards
the audio URL. -/
def storyboardLoop (pr img : Nat → Except String String) (i : Nat) (s : AudioState) :
    Nat → AudioState
  | 0 => s
  | rem + 1 =>
      match pr i with
      | .error msg => { s with error := some msg, audioUrl := none }
      | .ok p =>
          let s1 : AudioState := { s with scenes := patchPrompt s.scenes i p }
          match img i with
          | .error msg => { s1 with error := some msg, audioUrl := none }
          | .ok url =>
              storyboardLoop pr img (i + 1)
                { s1 with scenes := patchImage s1.scenes i url } rem

/-- `handleCreateStoryboard` (`part_000` 66–118) as a state transformer.
Oracles: `fileContent` is the result of `scriptFile.text()`, `newUrl` the
result of `URL.createObjectURL(audioFile)`, `pr`/`img` the per-scene
prompt- and image-generation calls. -/
def handleCreateStoryboard (s : AudioState) (fileContent : String) (newUrl : String)
    (pr img : Nat → Except String String) : AudioState :=
  if s.scriptFile = none ∨ s.audioFile = none then
    { s with error := some bothFilesMsg }
  else
    let s1 : AudioState :=
      setAudioTime
        { s with isLoading := true, error := none, scenes := [],
                 currentSceneIndex := 0, isPlaying := false } 0
    let lines := splitLines fileContent
    let s2 : AudioState :=
      if lines = [] then { s1 with error := some emptyScriptMsg, audioUrl := none }
      else
        let initialScenes := mkScenesFromLines 0 lines
        storyboardLoop pr img 0
          { s1 with scenes := initialScenes, audioUrl := some newUrl }
          initialScenes.length
    { s2 with isLoading := false }

/-- `handleAudioTimeUpdate` (`part_000` 126–137): with a mounted audio
element and nonzero per-scene duration, the index becomes
`Math.min(scenes.length - 1, Math.floor(currentTime / sceneDuration))`,
and state is written only when it differs from the current index. -/
def handleAudioTimeUpdate (s : AudioState) : AudioState :=
  match s.audioRef with
  | none => s
  | some a =>
      if s.sceneDuration = 0 then s
      else
        let newIndex : Int :=
          min ((s.scenes.length : Int) - 1) ⌊a.currentTime / s.sceneDuration⌋
        if newIndex = s.currentSceneIndex then s
        else { s with currentSceneIndex := newIndex }

/-- `handleAudioLoadedMetadata` (`part_000` 139–145): with scenes present
and a finite nonzero duration, store `duration / scenes.length` in
`sceneDurationRef`. -/
def handleAudioLoadedMetadata (s : AudioState) : AudioState :=
  match s.audioRef with
  | none => s
  | some a =>
      if s.scenes.length = 0 then s
      else
        match a.duration with
        | none => s
        | some d =>
            if d = 0 then s
            else { s with sceneDuration := d / (s.scenes.length : Rat) }

/-- `handleAudioEnded` (`part_000` 147–150). -/
def handleAudioEnded (s : AudioState) : AudioState :=
  { s with isPlaying := false, currentSceneIndex := (s.scenes.length : Int) - 1 }

/-- `goToScene` (`part_000` 152–157): no-op when there are no scenes or no
audio element (the `isFinite(sceneDurationRef.current)` conjunct is
identically true, see `AudioState`); otherwise the index becomes
`(index + scenes.length) % scenes.length` (JS `%` = `Int.tmod`) and the
audio position is set to `newIndex * sceneDurationRef.current`.
Playback is not touched. -/
def goToScene (s : AudioState) (index : Int) : AudioState :=
  match s.audioRef with
  | none => s
  | some a =>
      if s.scenes.length = 0 then s
      else
        let n : Int := (s.scenes.length : Int)
        let newIndex := Int.tmod (index + n) n
        { s with currentSceneIndex := newIndex,
                 audioRef := some { a with currentTime := (newIndex : Rat) * s.sceneDuration } }

/-- `nextScene` in the audio-mode app (`part_000` 159). -/
def nextSceneAudio (s : AudioState) : AudioState :=
  goToScene s (s.currentSceneIndex + 1)

/-- `prevScene` in the audio-mode app (`part_000` 160). -/
def prevSceneAudio (s : AudioState) : AudioState :=
  goToScene s (s.currentSceneIndex - 1)

/-! ### Script-generation service (`src/services/geminiService.ts`) -/

/-- JSON values, for the parsed script-generation response. -/
inductive Json where
  | null
  | bool (b : Bool)
  | num (q : Rat)
  | str (s : String)
  | arr (xs : List Json)
  | obj (fields : List (String × Json))
deriving Repr

/-- First field of a JS object with the given key. -/
def lookupField : List (String × Json) → String → Option Json
  | [], _ => none
  | (k, v) :: rest, key => if k = key then some v else lookupField rest key

/-- JS property access `parsedData.scenes`: `none` models `undefined`
(value not an object, or field absent). -/
def getField : Json → String → Option Json
  | .obj fields, key => lookupField fields key
  | _, _ => none

/-- JS truthiness of a defined value (a missing field is handled via
`Option` at the call site; `NaN` does not arise for `Rat`). -/
def jsTruthy : Json → Bool
  | .null => false
  | .bool b => b
  | .num q => decide (q ≠ 0)
  | .str s => decide (s ≠ "")
  | .arr _ => true
  | .obj _ => true

/-- `Array.isArray`. -/
def isArray : Json → Bool
  | .arr _ => true
  | _ => false

/-- The fixed failure message of `generateScript` (`geminiService.ts` 63). -/
def scriptFailMsg : String := "スクリプトの生成に失敗しました。"

/-- `generateScript` (`geminiService.ts` 37–65), with the remote call and
`JSON.parse` as oracles: `api` is the outcome of the API call (`.ok`
carries `response.text`), `parse` the JSON parser (`none` = `JSON.parse`
throws). Every throw inside the `try` — the API call failing, the parse
failing, or the explicit check that `parsedData.scenes` is truthy and an
array — lands in the `catch` block, which rethrows the fixed message. -/
def generateScript (api : Except String String) (parse : String → Option Json) :
    Except String Json :=
  match api with
  | .error _ => .error scriptFailMsg
  | .ok text =>
      match parse (jsTrim text) with
      | none => .error scriptFailMsg
      | some parsedData =>
          match getField parsedData "scenes" with
          | none => .error scriptFailMsg
          | some scenesField =>
              if jsTruthy scenesField && isArray scenesField then .ok parsedData
              else .error scriptFailMsg

/-! ### Interleaving machine: full pipeline vs. single-scene regeneration

The two async actions of the topic-mode app share the scene store. The
pipeline (`handleGenerate`) suspends at its `await` points (`generateScript`,
then one `generateImage` per scene); single-scene regeneration
(`handleRegenerateImage`, `App.tsx` 131–145) suspends at its one
`generateImage` await, which is pending exactly while `regeneratingSceneId`
is non-null (it is set right before the await and cleared in `finally`).
Button clicks are guarded by the DOM `disabled` attributes:
`disabled={isLoading}` for the generate button (`App.tsx` 189) and
`disabled={isLoading || regeneratingSceneId !== null}` for the regenerate
button (`App.tsx` 283); a disabled button never fires its handler, so a
blocked click is not an enabled event (`step` returns `none`). -/

/-- Pending pipeline request: the `await` point inside `handleGenerate`
at which the run is suspended. -/
inductive PipelinePhase where
  | idle
  | awaitingScript
  | awaitingImage (i : Nat) (n : Nat)
deriving Repr, DecidableEq

/-- App state plus the pipeline's suspension point. -/
structure MachineState where
  app : AppState
  pipeline : PipelinePhase
deriving Repr, DecidableEq

/-- UI events and asynchronous completions. -/
inductive Event where
  | clickGenerate (topic : String)
  | scriptOk (entries : List ScriptEntry)
  | scriptErr (msg : String)
  | imageOk (url : String)
  | imageErr (msg : String)
  | clickRegenerate
  | regenOk (url : String)
  | regenErr (msg : String)
deriving Repr, DecidableEq

/-- Small-step transition; `none` means the event is not enabled in this
state (a click on a disabled button, or a completion with no matching
pending request). -/
def step (m : MachineState) : Event → Option MachineState
  | .clickGenerate topic =>
      if m.app.isLoading then none
      else if jsTrim topic = "" then
        some { m with app := { m.app with error := some topicEmptyMsg } }
      else
        let app1 : AppState :=
          { m.app with isLoading := true, error := none, scenes := [],
                       currentSceneIndex := 0, isPlaying := false }
        some { app := app1, pipeline := .awaitingScript }
  | .scriptOk entries =>
      match m.pipeline with
      | .awaitingScript =>
          let initialScenes := mkScenes 0 entries
          let app1 : AppState := { m.app with scenes := initialScenes }
          if initialScenes.length = 0 then
            some { app := { app1 with isLoading := false }, pipeline := .idle }
          else
            some { app := app1, pipeline := .awaitingImage 0 initialScenes.length }
      | _ => none
  | .scriptErr msg =>
      match m.pipeline with
      | .awaitingScript =>
          some { app := { m.app with error := some msg, isLoading := false },
                 pipeline := .idle }
      | _ => none
  | .imageOk url =>
      match m.pipeline with
      | .awaitingImage i n =>
          let app1 : AppState := { m.app with scenes := patchImage m.app.scenes i url }
          if i + 1 < n then
            some { app := app1, pipeline := .awaitingImage (i + 1) n }
          else
            some { app := { app1 with isLoading := false }, pipeline := .idle }
      | _ => none
  | .imageErr msg =>
      match m.pipeline with
      | .awaitingImage _ _ =>
          some { app := { m.app with error := some msg, isLoading := false },
                 pipeline := .idle }
      | _ => none
  | .clickRegenerate =>
      if m.app.isLoading ∨ m.app.regeneratingSceneId ≠ none then none
      else
        match sceneAt m.app.scenes m.app.currentSceneIndex with
        | none => some m
        | some sc =>
            let app1 : AppState :=
              { m.app with isPlaying := false, error := none,
                           regeneratingSceneId := some sc.id }
            some { m with app := app1 }
  | .regenOk url =>
      match m.app.regeneratingSceneId with
      | none => none
      | some id =>
          let app1 : AppState :=
            { m.app with scenes := patchImage m.app.scenes id url,
                         regeneratingSceneId := none }
          some { m with app := app1 }
  | .regenErr msg =>
      match m.app.regeneratingSceneId with
      | none => none
      | some _ =>
          let app1 : AppState :=
            { m.app with error := some msg, regeneratingSceneId := none }
          some { m with app := app1 }

/-- Run a sequence of events, requiring each to be enabled. -/
def runTrace (m : MachineState) : List Event → Option MachineState
  | [] => some m
  | e :: es =>
      match step m e with
      | none => none
      | some m1 => runTrace m1 es

/-- The app's initial state (`App.tsx` 10–16). -/
def initMachine : MachineState :=
  { app := { scenes := [], isLoading := false, error := none, currentSceneIndex := 0,
             isPlaying := false, regeneratingSceneId := none },
    pipeline := .idle }

/-- Number of image-generation requests in flight: the pipeline's pending
`generateImage` call plus the regeneration's pending `generateImage` call. -/
def imagesInFlight (m : MachineState) : Nat :=
  (match m.pipeline with
   | .awaitingImage _ _ => 1
   | _ => 0) +
  (match m.app.regeneratingSceneId with
   | some _ => 1
   | none => 0)

/-! ### Loop characterizations and concrete states used by the theorems -/

/-- Apply `patchImage` at indices `i, i+1, …, i+j-1` with urls `u`: the scene
patches performed by `genImagesLoop` before a failure at index `i+j`. -/
def patchSeq (u : Nat → String) (i : Nat) (scenes : List Scene) : Nat → List Scene
  | 0 => scenes
  | j + 1 => patchSeq u (i + 1) (patchImage scenes i (u i)) j

/-- Apply the audio-mode per-scene patches (`patchPrompt` with `p`, then
`patchImage` with `u`) at indices `i, …, i+j-1`: the patches performed by
`storyboardLoop` before a failure at index `i+j`. -/
def audioPatchSeq (p u : Nat → String) (i : Nat) (scenes : List Scene) :
    Nat → List Scene
  | 0 => scenes
  | j + 1 =>
      audioPatchSeq p u (i + 1) (patchImage (patchPrompt scenes i (p i)) i (u i)) j

/-- A script entry used in concrete runs. -/
def sampleEntry : ScriptEntry := { image_prompt := "p", narrator_script := "n" }

/-- The topic-mode app's initial state (`App.tsx` 10–16). -/
def emptyApp : AppState :=
  { scenes := [], isLoading := false, error := none, currentSceneIndex := 0,
    isPlaying := false, regeneratingSceneId := none }

/-- A scene whose image generation already completed. -/
def filledScene (n : Nat) : Scene :=
  { id := n, imagePrompt := "p", narratorScript := "n", imageUrl := some "u" }

/-- Audio-mode state: 2 finished scenes, audio element mounted but metadata
not yet loaded (`sceneDurationRef` still 0), playback running. -/
def c2Board : AudioState :=
  { scriptFile := none, audioFile := none, audioUrl := some "blob:a",
    audioRef := some { currentTime := 0, duration := none }, sceneDuration := 0,
    scenes := [filledScene 0, filledScene 1], isLoading := false, error := none,
    currentSceneIndex := 0, isPlaying := true, regeneratingSceneId := none }

/-- Audio-mode state: 5 finished scenes, 30-second audio, per-scene duration
6 = 30/5 already computed. -/
def c5Board : AudioState :=
  { scriptFile := none, audioFile := none, audioUrl := some "blob:a",
    audioRef := some { currentTime := 0, duration := some 30 }, sceneDuration := 6,
    scenes := [filledScene 0, filledScene 1, filledScene 2, filledScene 3, filledScene 4],
    isLoading := false, error := none,
    currentSceneIndex := 0, isPlaying := false, regeneratingSceneId := none }

/-- Audio-mode state: 3 finished scenes, 30-second audio at position 22s,
metadata callback not yet run. -/
def c4Board : AudioState :=
  { scriptFile := none, audioFile := none, audioUrl := some "blob:a",
    audioRef := some { currentTime := 22, duration := some 30 }, sceneDuration := 0,
    scenes := [filledScene 0, filledScene 1, filledScene 2], isLoading := false,
    error := none, currentSceneIndex := 0, isPlaying := true, regeneratingSceneId := none }

/-- `c4Board` after the metadata callback stored 10 = 30/3. -/
def c4BoardLoaded : AudioState :=
  { c4Board with sceneDuration := 10 }

/-- A text and an audio file of the accepted MIME types. -/
def txtFile : FileInfo := { name := "s.txt", mimeType := "text/plain" }

/-- An audio file of an accepted MIME type. -/
def mp3File : FileInfo := { name := "a.mp3", mimeType := "audio/mpeg" }

/-- A file of a rejected MIME type. -/
def pdfFile : FileInfo := { name := "x.pdf", mimeType := "application/pdf" }

/-- Audio-mode state with both files selected and an existing board playing:
the state right before a storyboard re-run. -/
def c7Board : AudioState :=
  { scriptFile := some txtFile, audioFile := some mp3File, audioUrl := some "blob:a",
    audioRef := some { currentTime := 22, duration := some 30 }, sceneDuration := 10,
    scenes := [filledScene 0, filledScene 1, filledScene 2], isLoading := false,
    error := none, currentSceneIndex := 2, isPlaying := true, regeneratingSceneId := none }

/-- Audio-mode state with both files selected and no board yet. -/
def c6Board : AudioState :=
  { scriptFile := some txtFile, audioFile := some mp3File, audioUrl := none,
    audioRef := none, sceneDuration := 0, scenes := [], isLoading := false,
    error := none, currentSceneIndex := 0, isPlaying := false, regeneratingSceneId := none }

/-- Event trace: a 1-scene pipeline runs to completion; the user clicks
regenerate (its image request starts), then — while that request is still in
flight — clicks the generate button, which is enabled again because
`isLoading` is false; the new pipeline's script call resolves and its first
image request starts. -/
def c3Trace : List Event :=
  [.clickGenerate "t", .scriptOk [sampleEntry], .imageOk "u",
   .clickRegenerate, .clickGenerate "t", .scriptOk [sampleEntry]]

/-- A machine state with a full pipeline run active. -/
def c3Busy : MachineState :=
  { app := { scenes := [filledScene 0], isLoading := true, error := none,
             currentSceneIndex := 0, isPlaying := false, regeneratingSceneId := none },
    pipeline := .awaitingImage 0 1 }

/-- Topic-mode state: 2 finished scenes, speech playback running on the
first scene. -/
def c8Playing : AppState :=
  { scenes := [filledScene 0, filledScene 1], isLoading := false, error := none,
    currentSceneIndex := 0, isPlaying := true, regeneratingSceneId := none }

/-- The image-failure message thrown by `generateImage`
(`geminiService.ts` 87). -/
def imageFailMsg : String := "画像の生成に失敗しました。"

/-- Image oracle that succeeds on the first two scenes and fails afterwards. -/
def imgFailAt2 : Nat → Except String String :=
  fun t => if t < 2 then .ok "u" else .error imageFailMsg

/-- Image oracle that succeeds on the first scene and fails afterwards. -/
def imgFailAt1 : Nat → Except String String :=
  fun t => if t < 1 then .ok "w" else .error imageFailMsg

/-! ### Helper lemmas -/

theorem setAudioTime_scenes (s : AudioState) (t : Rat) :
    (setAudioTime s t).scenes = s.scenes := by
  cases h : s.audioRef <;> simp [setAudioTime, h]

theorem setAudioTime_error (s : AudioState) (t : Rat) :
    (setAudioTime s t).error = s.error := by
  cases h : s.audioRef <;> simp [setAudioTime, h]

theorem setAudioTime_isLoading (s : AudioState) (t : Rat) :
    (setAudioTime s t).isLoading = s.isLoading := by
  cases h : s.audioRef <;> simp [setAudioTime, h]

theorem setAudioTime_isPlaying (s : AudioState) (t : Rat) :
    (setAudioTime s t).isPlaying = s.isPlaying := by
  cases h : s.audioRef <;> simp [setAudioTime, h]

theorem setAudioTime_currentSceneIndex (s : AudioState) (t : Rat) :
    (setAudioTime s t).currentSceneIndex = s.currentSceneIndex := by
  cases h : s.audioRef <;> simp [setAudioTime, h]

theorem setAudioTime_audioUrl (s : AudioState) (t : Rat) :
    (setAudioTime s t).audioUrl = s.audioUrl := by
  cases h : s.audioRef <;> simp [setAudioTime, h]

theorem genImagesLoop_scenes_length (img : Nat → Except String String) :
    ∀ (rem i : Nat) (s : AppState),
      ((genImagesLoop img i s rem).scenes).length = s.scenes.length := by
  intro rem
  induction rem with
  | zero => intro i s; rfl
  | succ rem ih =>
      intro i s
      simp only [genImagesLoop]
      cases img i with
      | error msg => rfl
      | ok url => rw [ih]; simp [patchImage]

theorem mkScenes_length : ∀ (entries : List ScriptEntry) (start : Nat),
    (mkScenes start entries).length = entries.length := by
  intro entries
  induction entries with
  | nil => intro start; rfl
  | cons e rest ih => intro start; simp [mkScenes, ih]

theorem mkScenes_getElem? : ∀ (entries : List ScriptEntry) (start q : Nat),
    (mkScenes start entries)[q]? = (entries[q]?).map (fun e =>
      { id := start + q, imagePrompt := e.image_prompt,
        narratorScript := e.narrator_script, imageUrl := none }) := by
  intro entries
  induction entries with
  | nil => intro start q; simp [mkScenes]
  | cons e rest ih =>
      intro start q
      cases q with
      | zero => simp [mkScenes]
      | succ q' =>
          simp only [mkScenes, List.getElem?_cons_succ]
          rw [ih (start + 1) q']
          have e1 : start + 1 + q' = start + (q' + 1) := by omega
          rw [e1]

theorem mkScenesFromLines_length : ∀ (lines : List String) (start : Nat),
    (mkScenesFromLines start lines).length = lines.length := by
  intro lines
  induction lines with
  | nil => intro start; rfl
  | cons line rest ih => intro start; simp [mkScenesFromLines, ih]

theorem mkScenesFromLines_getElem? : ∀ (lines : List String) (start q : Nat),
    (mkScenesFromLines start lines)[q]? = (lines[q]?).map (fun line =>
      { id := start + q, imagePrompt := "", narratorScript := line,
        imageUrl := none }) := by
  intro lines
  induction lines with
  | nil => intro start q; simp [mkScenesFromLines]
  | cons line rest ih =>
      intro start q
      cases q with
      | zero => simp [mkScenesFromLines]
      | succ q' =>
          simp only [mkScenesFromLines, List.getElem?_cons_succ]
          rw [ih (start + 1) q']
          have e1 : start + 1 + q' = start + (q' + 1) := by omega
          rw [e1]

theorem mapSceneIdx_getElem? (f : Int → Scene → Scene) :
    ∀ (scenes : List Scene) (start : Int) (q : Nat),
      (mapSceneIdx f start scenes)[q]? = (scenes[q]?).map (f (start + (q : Int))) := by
  intro scenes
  induction scenes with
  | nil => intro start q; simp [mapSceneIdx]
  | cons sc rest ih =>
      intro start q
      cases q with
      | zero => simp [mapSceneIdx]
      | succ q' =>
          simp only [mapSceneIdx, List.getElem?_cons_succ]
          rw [ih (start + 1) q']
          have e1 : start + 1 + (q' : Int) = start + ((q' : Nat) + 1 : Nat) := by
            push_cast; ring
          rw [e1]

theorem patchSeq_eq_map (u : Nat → String) :
    ∀ (j i : Nat) (scenes : List Scene),
      patchSeq u i scenes j = scenes.map (fun sc =>
        if i ≤ sc.id ∧ sc.id < i + j then { sc with imageUrl := some (u sc.id) }
        else sc) := by
  intro j
  induction j with
  | zero =>
      intro i scenes
      simp only [patchSeq]
      have h : (fun sc : Scene =>
          if i ≤ sc.id ∧ sc.id < i + 0 then { sc with imageUrl := some (u sc.id) }
          else sc) = fun sc => sc := by
        funext sc
        rw [if_neg (by omega)]
      rw [h, List.map_id']
  | succ j ih =>
      intro i scenes
      simp only [patchSeq, patchImage]
      rw [ih (i + 1), List.map_map]
      apply List.map_congr_left
      intro sc _
      simp only [Function.comp_apply]
      by_cases hid : sc.id = i
      · rw [if_pos hid]
        rw [if_neg (by simp; omega), if_pos (by constructor <;> omega)]
        rw [hid]
      · rw [if_neg hid]
        by_cases hc : i + 1 ≤ sc.id ∧ sc.id < i + 1 + j
        · rw [if_pos hc, if_pos (by omega)]
        · rw [if_neg hc, if_neg (by omega)]

theorem audioPatchSeq_eq_map (p u : Nat → String) :
    ∀ (j i : Nat) (scenes : List Scene),
      audioPatchSeq p u i scenes j = scenes.map (fun sc =>
        if i ≤ sc.id ∧ sc.id < i + j then
          { sc with imagePrompt := p sc.id, imageUrl := some (u sc.id) }
        else sc) := by
  intro j
  induction j with
  | zero =>
      intro i scenes
      simp only [audioPatchSeq]
      have h : (fun sc : Scene =>
          if i ≤ sc.id ∧ sc.id < i + 0 then
            { sc with imagePrompt := p sc.id, imageUrl := some (u sc.id) }
          else sc) = fun sc => sc := by
        funext sc
        rw [if_neg (by omega)]
      rw [h, List.map_id']
  | succ j ih =>
      intro i scenes
      simp only [audioPatchSeq, patchImage, patchPrompt]
      rw [ih (i + 1), List.map_map, List.map_map]
      apply List.map_congr_left
      intro sc _
      simp only [Function.comp_apply]
      by_cases hid : sc.id = i
      · subst hid
        have h1 : ¬(sc.id + 1 ≤ sc.id ∧ sc.id < sc.id + 1 + j) := by omega
        have h2 : sc.id ≤ sc.id ∧ sc.id < sc.id + (j + 1) := by omega
        simp [h1, h2]
      · simp only [if_neg hid]
        by_cases hc : i + 1 ≤ sc.id ∧ sc.id < i + 1 + j
        · rw [if_pos hc, if_pos (by omega)]
        · rw [if_neg hc, if_neg (by omega)]

theorem genImagesLoop_fail (img : Nat → Except String String) (u : Nat → String)
    (msg : String) :
    ∀ (j rem i : Nat) (s : AppState),
      (∀ t, t < j → img (i + t) = .ok (u (i + t))) →
      img (i + j) = .error msg → j < rem →
      genImagesLoop img i s rem =
        { s with scenes := patchSeq u i s.scenes j, error := some msg } := by
  intro j
  induction j with
  | zero =>
      intro rem i s hok hfail hlt
      cases rem with
      | zero => omega
      | succ rem' =>
          have h0 : img i = .error msg := by simpa using hfail
          simp only [genImagesLoop, h0]
          simp [patchSeq]
  | succ j ih =>
      intro rem i s hok hfail hlt
      cases rem with
      | zero => omega
      | succ rem' =>
          have h0 : img i = .ok (u i) := by simpa using hok 0 (by omega)
          simp only [genImagesLoop, h0]
          have hok' : ∀ t, t < j → img (i + 1 + t) = .ok (u (i + 1 + t)) := by
            intro t ht
            have h2 := hok (t + 1) (by omega)
            have e1 : i + (t + 1) = i + 1 + t := by omega
            rwa [e1] at h2
          have hfail' : img (i + 1 + j) = .error msg := by
            have e1 : i + 1 + j = i + (j + 1) := by omega
            rw [e1]; exact hfail
          rw [ih rem' (i + 1) _ hok' hfail' (by omega)]
          simp [patchSeq]

theorem storyboardLoop_fail_pr (pr img : Nat → Except String String)
    (p u : Nat → String) (msg : String) :
    ∀ (j rem i : Nat) (s : AudioState),
      (∀ t, t < j → pr (i + t) = .ok (p (i + t)) ∧ img (i + t) = .ok (u (i + t))) →
      pr (i + j) = .error msg → j < rem →
      storyboardLoop pr img i s rem =
        { s with scenes := audioPatchSeq p u i s.scenes j, error := some msg,
                 audioUrl := none } := by
  intro j
  induction j with
  | zero =>
      intro rem i s hok hfail hlt
      cases rem with
      | zero => omega
      | succ rem' =>
          have h0 : pr i = .error msg := by simpa using hfail
          simp only [storyboardLoop, h0]
          simp [audioPatchSeq]
  | succ j ih =>
      intro rem i s hok hfail hlt
      cases rem with
      | zero => omega
      | succ rem' =>
          have h0 := hok 0 (by omega)
          have hpr : pr i = .ok (p i) := by simpa using h0.1
          have him : img i = .ok (u i) := by simpa using h0.2
          simp only [storyboardLoop, hpr, him]
          have hok' : ∀ t, t < j →
              pr (i + 1 + t) = .ok (p (i + 1 + t)) ∧
              img (i + 1 + t) = .ok (u (i + 1 + t)) := by
            intro t ht
            have h2 := hok (t + 1) (by omega)
            have e1 : i + (t + 1) = i + 1 + t := by omega
            rwa [e1] at h2
          have hfail' : pr (i + 1 + j) = .error msg := by
            have e1 : i + 1 + j = i + (j + 1) := by omega
            rw [e1]; exact hfail
          rw [ih rem' (i + 1) _ hok' hfail' (by omega)]
          simp [audioPatchSeq]

theorem storyboardLoop_fail_img (pr img : Nat → Except String String)
    (p u : Nat → String) (pj msg : String) :
    ∀ (j rem i : Nat) (s : AudioState),
      (∀ t, t < j → pr (i + t) = .ok (p (i + t)) ∧ img (i + t) = .ok (u (i + t))) →
      pr (i + j) = .ok pj → img (i + j) = .error msg → j < rem →
      storyboardLoop pr img i s rem =
        { s with scenes := patchPrompt (audioPatchSeq p u i s.scenes j) (i + j) pj,
                 error := some msg, audioUrl := none } := by
  intro j
  induction j with
  | zero =>
      intro rem i s hok hprj hfail hlt
      cases rem with
      | zero => omega
      | succ rem' =>
          have h0 : pr i = .ok pj := by simpa using hprj
          have h1 : img i = .error msg := by simpa using hfail
          simp only [storyboardLoop, h0, h1]
          simp [audioPatchSeq]
  | succ j ih =>
      intro rem i s hok hprj hfail hlt
      cases rem with
      | zero => omega
      | succ rem' =>
          have h0 := hok 0 (by omega)
          have hpr : pr i = .ok (p i) := by simpa using h0.1
          have him : img i = .ok (u i) := by simpa using h0.2
          simp only [storyboardLoop, hpr, him]
          have hok' : ∀ t, t < j →
              pr (i + 1 + t) = .ok (p (i + 1 + t)) ∧
              img (i + 1 + t) = .ok (u (i + 1 + t)) := by
            intro t ht
            have h2 := hok (t + 1) (by omega)
            have e1 : i + (t + 1) = i + 1 + t := by omega
            rwa [e1] at h2
          have hprj' : pr (i + 1 + j) = .ok pj := by
            have e1 : i + 1 + j = i + (j + 1) := by omega
            rw [e1]; exact hprj
          have hfail' : img (i + 1 + j) = .error msg := by
            have e1 : i + 1 + j = i + (j + 1) := by omega
            rw [e1]; exact hfail
          rw [ih rem' (i + 1) _ hok' hprj' hfail' (by omega)]
          have e1 : i + 1 + j = i + (j + 1) := by omega
          rw [e1]
          simp [audioPatchSeq]

theorem tmod_shift_eq_emod (i n : Int) (hn : 0 < n) (hi : -n ≤ i) :
    Int.tmod (i + n) n = i % n := by
  rw [Int.tmod_eq_emod (by omega) (by omega), Int.add_emod_self]

/-! ### Claim theorems -/

/-- C4: under the time-division strategy, the metadata callback stores the
per-scene duration total duration / scene count; every time-update tick sets
the index to min(N − 1, ⌊elapsed / perSceneDuration⌋), and writes state only
when that differs from the current index. -/
theorem c4_time_division_index (s u : AudioState) (a b : AudioEl) (d : Rat)
    (hsa : s.audioRef = some a) (hdur : a.duration = some d) (hd0 : d ≠ 0)
    (hn : 0 < s.scenes.length)
    (hub : u.audioRef = some b) (hu0 : u.sceneDuration ≠ 0) :
    (handleAudioLoadedMetadata s).sceneDuration = d / (s.scenes.length : Rat) ∧
    (handleAudioTimeUpdate u).currentSceneIndex =
      min ((u.scenes.length : Int) - 1) ⌊b.currentTime / u.sceneDuration⌋ ∧
    (min ((u.scenes.length : Int) - 1) ⌊b.currentTime / u.sceneDuration⌋ =
        u.currentSceneIndex →
      handleAudioTimeUpdate u = u) := by
  refine ⟨?_, ?_, ?_⟩
  · simp only [handleAudioLoadedMetadata, hsa]
    rw [if_neg (by omega)]
    simp only [hdur]
    rw [if_neg hd0]
  · simp only [handleAudioTimeUpdate, hub]
    rw [if_neg hu0]
    by_cases hc : min ((u.scenes.length : Int) - 1) ⌊b.currentTime / u.sceneDuration⌋ =
        u.currentSceneIndex
    · rw [if_pos hc]; exact hc.symm
    · rw [if_neg hc]
  · intro hc
    simp only [handleAudioTimeUpdate, hub]
    rw [if_neg hu0, if_pos hc]

/-- Witness for C4 — the spec's end-to-end numbers: 3 scenes and a 30-second
audio give per-scene duration 10, and the tick at 22 seconds selects
index 2. -/
theorem c4_time_division_index_witness :
    c4Board.audioRef = some { currentTime := 22, duration := some 30 } ∧
    ({ currentTime := 22, duration := some 30 } : AudioEl).duration = some 30 ∧
    (30 : Rat) ≠ 0 ∧
    0 < c4Board.scenes.length ∧
    c4BoardLoaded.audioRef = some { currentTime := 22, duration := some 30 } ∧
    c4BoardLoaded.sceneDuration ≠ 0 ∧
    ((handleAudioLoadedMetadata c4Board).sceneDuration =
        30 / (c4Board.scenes.length : Rat) ∧
      (handleAudioTimeUpdate c4BoardLoaded).currentSceneIndex =
        min ((c4BoardLoaded.scenes.length : Int) - 1)
          ⌊({ currentTime := 22, duration := some 30 } : AudioEl).currentTime /
            c4BoardLoaded.sceneDuration⌋ ∧
      (min ((c4BoardLoaded.scenes.length : Int) - 1)
          ⌊({ currentTime := 22, duration := some 30 } : AudioEl).currentTime /
            c4BoardLoaded.sceneDuration⌋ = c4BoardLoaded.currentSceneIndex →
        handleAudioTimeUpdate c4BoardLoaded = c4BoardLoaded)) ∧
    (30 : Rat) / (c4Board.scenes.length : Rat) = 10 ∧
    (handleAudioTimeUpdate c4BoardLoaded).currentSceneIndex = 2 := by
  refine ⟨rfl, rfl, by norm_num, by decide, rfl, by norm_num [c4BoardLoaded, c4Board],
    c4_time_division_index c4Board c4BoardLoaded _ _ 30 rfl rfl (by norm_num)
      (by decide) rfl (by norm_num [c4BoardLoaded, c4Board]), ?_, ?_⟩
  · norm_num [c4Board, filledScene]
  · norm_num [handleAudioTimeUpdate, c4BoardLoaded, c4Board, filledScene]

/-- C1 (amended): with a nonempty topic, when the script call succeeds
`handleGenerate` produces exactly as many scenes as the response has
entries — in particular k scenes when the response has the k requested
entries, but the requested `sceneCount` is never validated against the
response — and when the script call fails an error message is surfaced,
loading ends cleared and the scene count stays 0. -/
theorem c1_scene_count (s : AppState) (topic : String) (k sceneCount : Nat)
    (entries : List ScriptEntry) (emsg : String)
    (img : Nat → Except String String)
    (ht : ¬ jsTrim topic = "") (hk : entries.length = k) :
    (handleGenerate s topic sceneCount (.ok entries) img).scenes.length = k ∧
    (handleGenerate s topic sceneCount (.error emsg) img).scenes = [] ∧
    (handleGenerate s topic sceneCount (.error emsg) img).error = some emsg ∧
    (handleGenerate s topic sceneCount (.error emsg) img).isLoading = false := by
  refine ⟨?_, ?_, ?_, ?_⟩
  · simp only [handleGenerate, if_neg ht]
    rw [genImagesLoop_scenes_length]
    simp [mkScenes_length, hk]
  · simp [handleGenerate, ht]
  · simp [handleGenerate, ht]
  · simp [handleGenerate, ht]

/-- Witness for C1: a 3-entry response yields exactly 3 scenes, and a failed
script call yields an error with no scenes. -/
theorem c1_scene_count_witness :
    ¬ jsTrim "t" = "" ∧
    [sampleEntry, sampleEntry, sampleEntry].length = 3 ∧
    ((handleGenerate emptyApp "t" 3
        (.ok [sampleEntry, sampleEntry, sampleEntry]) (fun _ => .ok "u")).scenes.length = 3 ∧
      (handleGenerate emptyApp "t" 3
        (.error "e") (fun _ => .ok "u")).scenes = [] ∧
      (handleGenerate emptyApp "t" 3
        (.error "e") (fun _ => .ok "u")).error = some "e" ∧
      (handleGenerate emptyApp "t" 3
        (.error "e") (fun _ => .ok "u")).isLoading = false) :=
  ⟨by decide, by decide,
   c1_scene_count emptyApp "t" 3 3 [sampleEntry, sampleEntry, sampleEntry] "e"
     (fun _ => .ok "u") (by decide) (by decide)⟩

/-- Counterexample to C1 as stated: requesting sceneCount = 2 while the
script call succeeds with 3 entries falls in the claim's "every other case",
yet no error is surfaced and 3 scenes — not 0 — are produced. -/
theorem c1_counterexample :
    (handleGenerate emptyApp "t" 2 (.ok [sampleEntry, sampleEntry, sampleEntry])
        (fun _ => .ok "u")).scenes.length = 3 ∧
    (handleGenerate emptyApp "t" 2 (.ok [sampleEntry, sampleEntry, sampleEntry])
        (fun _ => .ok "u")).error = none := by decide

/-- C8: under the utterance-chaining strategy, when the speech synthesis for
the current scene completes, the index advances by one and playback
continues if it is not the last scene; at the last scene playback stops with
the index unchanged; and a synthesis error stops playback without advancing
the index. -/
theorem c8_utterance_completion (s : AppState) (h : speechActive s) :
    (s.currentSceneIndex < (s.scenes.length : Int) - 1 →
      (utteranceOnEnd s).currentSceneIndex = s.currentSceneIndex + 1 ∧
      (utteranceOnEnd s).isPlaying = true) ∧
    (s.currentSceneIndex = (s.scenes.length : Int) - 1 →
      (utteranceOnEnd s).isPlaying = false ∧
      (utteranceOnEnd s).currentSceneIndex = s.currentSceneIndex) ∧
    (utteranceOnError s).isPlaying = false ∧
    (utteranceOnError s).currentSceneIndex = s.currentSceneIndex := by
  refine ⟨?_, ?_, rfl, rfl⟩
  · intro hlt
    constructor
    · simp [utteranceOnEnd, hlt]
    · simp [utteranceOnEnd, hlt, h.1]
  · intro heq
    rw [utteranceOnEnd, if_neg (by omega)]
    exact ⟨rfl, rfl⟩

/-- Witness for C8: on a playing 2-scene board at scene 0, utterance
completion advances to scene 1 and keeps playing; at the last scene it would
stop; an error stops playback in place. -/
theorem c8_utterance_completion_witness :
    speechActive c8Playing ∧
    ((c8Playing.currentSceneIndex < (c8Playing.scenes.length : Int) - 1 →
        (utteranceOnEnd c8Playing).currentSceneIndex = c8Playing.currentSceneIndex + 1 ∧
        (utteranceOnEnd c8Playing).isPlaying = true) ∧
      (c8Playing.currentSceneIndex = (c8Playing.scenes.length : Int) - 1 →
        (utteranceOnEnd c8Playing).isPlaying = false ∧
        (utteranceOnEnd c8Playing).currentSceneIndex = c8Playing.currentSceneIndex) ∧
      (utteranceOnError c8Playing).isPlaying = false ∧
      (utteranceOnError c8Playing).currentSceneIndex = c8Playing.currentSceneIndex) :=
  ⟨by decide, c8_utterance_completion c8Playing (by decide)⟩

/-- C9: a narration or prompt edit via the editor replaces only the current
scene's edited field (the scene at the current index); every other position
is unchanged, and the edited scene's `id`, `imageUrl` and other text field
are carried over unchanged — visible in the record updates on the right-hand
sides, which touch nothing but the edited field. -/
theorem c9_edit_only_current_scene (s : AppState) (v : String) (q : Nat) :
    (handleScriptChange s v).scenes[q]? = (s.scenes[q]?).map (fun sc =>
      if (q : Int) = s.currentSceneIndex then { sc with narratorScript := v }
      else sc) ∧
    (handlePromptChange s v).scenes[q]? = (s.scenes[q]?).map (fun sc =>
      if (q : Int) = s.currentSceneIndex then { sc with imagePrompt := v }
      else sc) := by
  constructor
  · show (editNarration s.scenes s.currentSceneIndex v)[q]? = _
    rw [editNarration, mapSceneIdx_getElem?]
    simp
  · show (editPrompt s.scenes s.currentSceneIndex v)[q]? = _
    rw [editPrompt, mapSceneIdx_getElem?]
    simp

/-- C10: `generateScript` surfaces the same fixed localized message for
every failure cause — API call failure, unparseable JSON, and a parsed
response whose `scenes` field is missing or not an array — so a caller
cannot distinguish a malformed response from a call failure. -/
theorem c10_uniform_script_failure (api : Except String String)
    (parse : String → Option Json) (text emsg : String) (j f : Json)
    (hcause :
      api = .error emsg ∨
      (api = .ok text ∧ parse (jsTrim text) = none) ∨
      (api = .ok text ∧ parse (jsTrim text) = some j ∧
        getField j "scenes" = none) ∨
      (api = .ok text ∧ parse (jsTrim text) = some j ∧
        getField j "scenes" = some f ∧ isArray f = false)) :
    generateScript api parse = .error scriptFailMsg := by
  rcases hcause with h | ⟨h1, h2⟩ | ⟨h1, h2, h3⟩ | ⟨h1, h2, h3, h4⟩
  · simp [generateScript, h]
  · simp [generateScript, h1, h2]
  · simp [generateScript, h1, h2, h3]
  · simp [generateScript, h1, h2, h3, h4]

/-- Witness for C10: a failed API call yields exactly the fixed message. -/
theorem c10_uniform_script_failure_witness :
    ((Except.error "boom" : Except String String) = .error "boom" ∨
      ((Except.error "boom" : Except String String) = .ok "" ∧
        (fun (_ : String) => (none : Option Json)) (jsTrim "") = none) ∨
      ((Except.error "boom" : Except String String) = .ok "" ∧
        (fun (_ : String) => (none : Option Json)) (jsTrim "") = some .null ∧
        getField .null "scenes" = none) ∨
      ((Except.error "boom" : Except String String) = .ok "" ∧
        (fun (_ : String) => (none : Option Json)) (jsTrim "") = some .null ∧
        getField .null "scenes" = some .null ∧ isArray .null = false)) ∧
    generateScript (.error "boom") (fun _ => none) = .error scriptFailMsg :=
  ⟨Or.inl rfl,
   c10_uniform_script_failure (.error "boom") (fun _ => none) "" "boom" .null .null
     (Or.inl rfl)⟩

/-- C2 (amended): in the utterance-chaining (topic-mode) app, manual
navigation stops playback first and the new index is (current ± 1 + N) mod N,
wrapping in both directions. In the time-division (audio-mode) app,
navigation never touches the playback flag and is not gated on a known
per-scene duration: with an audio element mounted it wraps the index the
same way and seeks to newIndex × perSceneDuration (position 0 while the
duration is still the initial 0); it is a no-op only when no audio element
is mounted or there are no scenes. -/
theorem c2_navigation (s : AppState) (t w : AudioState) (a : AudioEl)
    (hsn : 0 < s.scenes.length) (hsc : 0 ≤ s.currentSceneIndex)
    (hta : t.audioRef = some a) (htn : 0 < t.scenes.length)
    (htc : 0 ≤ t.currentSceneIndex) (hw : w.audioRef = none) :
    ((nextSceneTopic s).isPlaying = false ∧
      (nextSceneTopic s).currentSceneIndex =
        (s.currentSceneIndex + 1 + (s.scenes.length : Int)) % (s.scenes.length : Int) ∧
      (prevSceneTopic s).isPlaying = false ∧
      (prevSceneTopic s).currentSceneIndex =
        (s.currentSceneIndex - 1 + (s.scenes.length : Int)) % (s.scenes.length : Int)) ∧
    ((nextSceneAudio t).isPlaying = t.isPlaying ∧
      (nextSceneAudio t).currentSceneIndex =
        (t.currentSceneIndex + 1 + (t.scenes.length : Int)) % (t.scenes.length : Int) ∧
      (nextSceneAudio t).audioRef = some { a with currentTime :=
        (((t.currentSceneIndex + 1 + (t.scenes.length : Int)) %
          (t.scenes.length : Int) : Int) : Rat) * t.sceneDuration } ∧
      (prevSceneAudio t).isPlaying = t.isPlaying ∧
      (prevSceneAudio t).currentSceneIndex =
        (t.currentSceneIndex - 1 + (t.scenes.length : Int)) % (t.scenes.length : Int)) ∧
    nextSceneAudio w = w ∧ prevSceneAudio w = w := by
  have hne : ¬ s.scenes.length = 0 := by omega
  have htne : ¬ t.scenes.length = 0 := by omega
  refine ⟨⟨?_, ?_, ?_, ?_⟩, ⟨?_, ?_, ?_, ?_, ?_⟩, ?_, ?_⟩
  · simp only [nextSceneTopic]
    split <;> rfl
  · simp only [nextSceneTopic]
    rw [if_neg hne, Int.tmod_eq_emod (by omega) (by omega)]
    rw [Int.add_emod_self]
  · simp only [prevSceneTopic]
    split <;> rfl
  · simp only [prevSceneTopic]
    rw [if_neg hne, Int.tmod_eq_emod (by omega) (by omega)]
  · simp only [nextSceneAudio, goToScene, hta]
    rw [if_neg htne]
  · simp only [nextSceneAudio, goToScene, hta]
    rw [if_neg htne]
    exact Int.tmod_eq_emod (by omega) (by omega)
  · simp only [nextSceneAudio, goToScene, hta]
    rw [if_neg htne, Int.tmod_eq_emod (by omega) (by omega)]
  · simp only [prevSceneAudio, goToScene, hta]
    rw [if_neg htne]
  · simp only [prevSceneAudio, goToScene, hta]
    rw [if_neg htne]
    exact Int.tmod_eq_emod (by omega) (by omega)
  · simp [nextSceneAudio, goToScene, hw]
  · simp [prevSceneAudio, goToScene, hw]

/-- Witness for C2: a playing 2-scene topic board at index 0 and a 2-scene
audio board with a mounted element (duration still unknown) and an audio
board with no element. -/
theorem c2_navigation_witness :
    0 < c8Playing.scenes.length ∧ 0 ≤ c8Playing.currentSceneIndex ∧
    c2Board.audioRef = some { currentTime := 0, duration := none } ∧
    0 < c2Board.scenes.length ∧ 0 ≤ c2Board.currentSceneIndex ∧
    c6Board.audioRef = none ∧
    (((nextSceneTopic c8Playing).isPlaying = false ∧
      (nextSceneTopic c8Playing).currentSceneIndex =
        (c8Playing.currentSceneIndex + 1 + (c8Playing.scenes.length : Int)) %
          (c8Playing.scenes.length : Int) ∧
      (prevSceneTopic c8Playing).isPlaying = false ∧
      (prevSceneTopic c8Playing).currentSceneIndex =
        (c8Playing.currentSceneIndex - 1 + (c8Playing.scenes.length : Int)) %
          (c8Playing.scenes.length : Int)) ∧
    ((nextSceneAudio c2Board).isPlaying = c2Board.isPlaying ∧
      (nextSceneAudio c2Board).currentSceneIndex =
        (c2Board.currentSceneIndex + 1 + (c2Board.scenes.length : Int)) %
          (c2Board.scenes.length : Int) ∧
      (nextSceneAudio c2Board).audioRef =
        some { ({ currentTime := 0, duration := none } : AudioEl) with currentTime :=
          (((c2Board.currentSceneIndex + 1 + (c2Board.scenes.length : Int)) %
            (c2Board.scenes.length : Int) : Int) : Rat) * c2Board.sceneDuration } ∧
      (prevSceneAudio c2Board).isPlaying = c2Board.isPlaying ∧
      (prevSceneAudio c2Board).currentSceneIndex =
        (c2Board.currentSceneIndex - 1 + (c2Board.scenes.length : Int)) %
          (c2Board.scenes.length : Int)) ∧
    nextSceneAudio c6Board = c6Board ∧ prevSceneAudio c6Board = c6Board) :=
  ⟨by decide, by decide, rfl, by decide, by decide, rfl,
   c2_navigation c8Playing c2Board c6Board { currentTime := 0, duration := none }
     (by decide) (by decide) rfl (by decide) (by decide) rfl⟩

/-- Counterexample to C2 as stated: on a playing 2-scene audio board whose
per-scene duration is still the initial 0 (not yet known), `nextScene`
neither stops playback nor is a no-op — playback stays on and the index
advances to 1. -/
theorem c2_counterexample :
    c2Board.sceneDuration = 0 ∧ c2Board.isPlaying = true ∧
    c2Board.currentSceneIndex = 0 ∧
    (nextSceneAudio c2Board).isPlaying = true ∧
    (nextSceneAudio c2Board).currentSceneIndex = 1 := by
  refine ⟨by decide, by decide, by decide, by decide, by decide⟩

/-- C5 (amended): with scenes present, a mounted audio element and per-scene
duration total/N, `goToScene i` wraps the index modulo N and seeks to
(i mod N) × (total/N) for every i ≥ −N — in particular in-range i maps to
itself and −1 maps to N − 1; for i < −N the computed JS remainder is
negative and the index does not wrap (see the counterexample). -/
theorem c5_goToScene_seek (s : AudioState) (a : AudioEl) (i : Int) (dtot : Rat)
    (ha : s.audioRef = some a) (hn : 0 < s.scenes.length)
    (hdur : s.sceneDuration = dtot / (s.scenes.length : Rat))
    (hi : -(s.scenes.length : Int) ≤ i) :
    (goToScene s i).currentSceneIndex = i % (s.scenes.length : Int) ∧
    (goToScene s i).audioRef = some { a with currentTime :=
      ((i % (s.scenes.length : Int) : Int) : Rat) *
        (dtot / (s.scenes.length : Rat)) } := by
  have hne : ¬ s.scenes.length = 0 := by omega
  constructor
  · simp only [goToScene, ha]
    rw [if_neg hne]
    exact tmod_shift_eq_emod i _ (by omega) hi
  · simp only [goToScene, ha]
    rw [if_neg hne, tmod_shift_eq_emod i _ (by omega) hi, hdur]

/-- Witness for C5: on the 5-scene board with a 30-second audio
(per-scene duration 6 = 30/5), `goToScene (-1)` wraps to scene 4 and seeks
to 4 × 6 = 24 seconds. -/
theorem c5_goToScene_seek_witness :
    c5Board.audioRef = some { currentTime := 0, duration := some 30 } ∧
    0 < c5Board.scenes.length ∧
    c5Board.sceneDuration = 30 / (c5Board.scenes.length : Rat) ∧
    -(c5Board.scenes.length : Int) ≤ (-1 : Int) ∧
    ((goToScene c5Board (-1)).currentSceneIndex =
        (-1 : Int) % (c5Board.scenes.length : Int) ∧
      (goToScene c5Board (-1)).audioRef =
        some { ({ currentTime := 0, duration := some 30 } : AudioEl) with
          currentTime := (((-1 : Int) % (c5Board.scenes.length : Int) : Int) : Rat) *
            (30 / (c5Board.scenes.length : Rat)) }) ∧
    (-1 : Int) % (c5Board.scenes.length : Int) = 4 :=
  ⟨rfl, by decide, by norm_num [c5Board, filledScene], by decide,
   c5_goToScene_seek c5Board { currentTime := 0, duration := some 30 } (-1) 30
     rfl (by decide) (by norm_num [c5Board, filledScene]) (by decide),
   by decide⟩

/-- Counterexample to C5 as stated: on a 5-scene board, `goToScene (-7)`
computes index (−7 + 5) JS-rem 5 = −2, which is not a wrapped scene index
(−7 mod 5 would be 3). -/
theorem c5_counterexample :
    (goToScene c5Board (-7)).currentSceneIndex = -2 ∧
    ¬ (0 ≤ (goToScene c5Board (-7)).currentSceneIndex ∧
        (goToScene c5Board (-7)).currentSceneIndex < (c5Board.scenes.length : Int)) ∧
    (-7 : Int) % (c5Board.scenes.length : Int) = 3 := by
  refine ⟨by decide, by decide, by decide⟩

/-- C3 (amended): while a full pipeline run is active (`isLoading`) or a
single-scene regeneration is in flight (`regeneratingSceneId` non-null), the
regenerate button is disabled, so invoking the regeneration action is not an
enabled event and changes nothing — hence no two regeneration requests are
ever in flight. The claim's further conclusion that no two image requests of
any kind are ever in flight fails: the generate button is disabled only by
`isLoading`, so a pipeline started during a regeneration puts two image
requests in flight (see the counterexample trace). -/
theorem c3_regeneration_blocked (m : MachineState)
    (h : m.app.isLoading = true ∨ m.app.regeneratingSceneId ≠ none) :
    step m .clickRegenerate = none := by
  simp only [step]
  exact if_pos h

/-- Witness for C3: with a pipeline image request pending (`isLoading`), the
regenerate click is disabled. -/
theorem c3_regeneration_blocked_witness :
    (c3Busy.app.isLoading = true ∨ c3Busy.app.regeneratingSceneId ≠ none) ∧
    step c3Busy .clickRegenerate = none :=
  ⟨Or.inl rfl, c3_regeneration_blocked c3Busy (Or.inl rfl)⟩

/-- Counterexample to C3's conclusion that no two image requests are ever in
flight: `c3Trace` is a sequence of enabled events from the initial state
(every click happens on an enabled button) after which the pipeline is
awaiting an image and a regeneration image request is also pending — two
image-generation requests in flight at once. -/
theorem c3_counterexample :
    (runTrace initMachine c3Trace).map imagesInFlight = some 2 ∧
    (runTrace initMachine c3Trace).map (fun m => m.app.regeneratingSceneId) =
      some (some 0) ∧
    (runTrace initMachine c3Trace).map MachineState.pipeline =
      some (.awaitingImage 0 1) := by
  refine ⟨by decide, by decide, by decide⟩

/-- C7 (amended): an empty topic and a wrong file type are rejected
synchronously with only the error message — and, for file inputs, the stored
file selection — changed; scenes, index, playback flag and loading state are
untouched. An empty script file, however, is detected only inside the
pipeline run, after the board reset: the scenes end cleared, the index 0,
playback stopped, the audio reference discarded, the error set and loading
false. -/
theorem c7_invalid_input (s : AppState) (topic : String) (k : Nat)
    (script : Except String (List ScriptEntry)) (img : Nat → Except String String)
    (t : AudioState) (f g : FileInfo) (content url : String)
    (pr img2 : Nat → Except String String)
    (htop : jsTrim topic = "")
    (hf : ¬ f.mimeType = "text/plain")
    (hg : jsStartsWith g.mimeType "audio/" = false)
    (hfiles : ¬ (t.scriptFile = none ∨ t.audioFile = none))
    (hempty : splitLines content = []) :
    handleGenerate s topic k script img = { s with error := some topicEmptyMsg } ∧
    handleScriptFileChange t (some f) =
      { t with scriptFile := none, error := some scriptFileTypeMsg } ∧
    handleAudioFileChange t (some g) =
      { t with audioFile := none, error := some audioFileTypeMsg } ∧
    (handleCreateStoryboard t content url pr img2).scenes = [] ∧
    (handleCreateStoryboard t content url pr img2).currentSceneIndex = 0 ∧
    (handleCreateStoryboard t content url pr img2).isPlaying = false ∧
    (handleCreateStoryboard t content url pr img2).isLoading = false ∧
    (handleCreateStoryboard t content url pr img2).error = some emptyScriptMsg ∧
    (handleCreateStoryboard t content url pr img2).audioUrl = none := by
  refine ⟨by simp [handleGenerate, htop], by simp [handleScriptFileChange, hf],
    by simp [handleAudioFileChange, hg], ?_, ?_, ?_, ?_, ?_, ?_⟩ <;>
    simp [handleCreateStoryboard, hfiles, hempty, setAudioTime_scenes,
      setAudioTime_currentSceneIndex, setAudioTime_isPlaying, setAudioTime_isLoading,
      setAudioTime_error, setAudioTime_audioUrl]

/-- Witness for C7: an empty-after-trim topic, a PDF file offered to both
file inputs, and a whitespace-only script file submitted on `c7Board`. -/
theorem c7_invalid_input_witness :
    jsTrim "  " = "" ∧
    ¬ pdfFile.mimeType = "text/plain" ∧
    jsStartsWith pdfFile.mimeType "audio/" = false ∧
    ¬ (c7Board.scriptFile = none ∨ c7Board.audioFile = none) ∧
    splitLines "  \n " = [] ∧
    (handleGenerate emptyApp "  " 3 (.error "e") (fun _ => .ok "u") =
        { emptyApp with error := some topicEmptyMsg } ∧
      handleScriptFileChange c7Board (some pdfFile) =
        { c7Board with scriptFile := none, error := some scriptFileTypeMsg } ∧
      handleAudioFileChange c7Board (some pdfFile) =
        { c7Board with audioFile := none, error := some audioFileTypeMsg } ∧
      (handleCreateStoryboard c7Board "  \n " "blob:b" (fun _ => .ok "p")
          (fun _ => .ok "i")).scenes = [] ∧
      (handleCreateStoryboard c7Board "  \n " "blob:b" (fun _ => .ok "p")
          (fun _ => .ok "i")).currentSceneIndex = 0 ∧
      (handleCreateStoryboard c7Board "  \n " "blob:b" (fun _ => .ok "p")
          (fun _ => .ok "i")).isPlaying = false ∧
      (handleCreateStoryboard c7Board "  \n " "blob:b" (fun _ => .ok "p")
          (fun _ => .ok "i")).isLoading = false ∧
      (handleCreateStoryboard c7Board "  \n " "blob:b" (fun _ => .ok "p")
          (fun _ => .ok "i")).error = some emptyScriptMsg ∧
      (handleCreateStoryboard c7Board "  \n " "blob:b" (fun _ => .ok "p")
          (fun _ => .ok "i")).audioUrl = none) :=
  ⟨by decide, by decide, by decide, by decide, by decide,
   c7_invalid_input emptyApp "  " 3 (.error "e") (fun _ => .ok "u") c7Board
     pdfFile pdfFile "  \n " "blob:b" (fun _ => .ok "p") (fun _ => .ok "i")
     (by decide) (by decide) (by decide) (by decide) (by decide)⟩

/-- Counterexample to C7 as stated: submitting a whitespace-only script file
on a playing 3-scene board mutates far more than the error message — the
scenes are cleared, the index resets to 0, playback stops and the audio
reference is dropped. -/
theorem c7_counterexample :
    c7Board.scenes.length = 3 ∧ c7Board.currentSceneIndex = 2 ∧
    c7Board.isPlaying = true ∧ c7Board.audioUrl = some "blob:a" ∧
    (handleCreateStoryboard c7Board "  \n " "blob:b" (fun _ => .ok "p")
        (fun _ => .ok "i")).scenes = [] ∧
    (handleCreateStoryboard c7Board "  \n " "blob:b" (fun _ => .ok "p")
        (fun _ => .ok "i")).currentSceneIndex = 0 ∧
    (handleCreateStoryboard c7Board "  \n " "blob:b" (fun _ => .ok "p")
        (fun _ => .ok "i")).isPlaying = false ∧
    (handleCreateStoryboard c7Board "  \n " "blob:b" (fun _ => .ok "p")
        (fun _ => .ok "i")).audioUrl = none ∧
    (handleCreateStoryboard c7Board "  \n " "blob:b" (fun _ => .ok "p")
        (fun _ => .ok "i")).error = some emptyScriptMsg := by
  refine ⟨by decide, by decide, by decide, by decide, by decide, by decide,
    by decide, by decide, by decide⟩

theorem patchPrompt_getElem? (scenes : List Scene) (i : Nat) (pj : String)
    (q : Nat) :
    (patchPrompt scenes i pj)[q]? = (scenes[q]?).map (fun sc =>
      if sc.id = i then { sc with imagePrompt := pj } else sc) := by
  rw [patchPrompt, List.getElem?_map]

theorem patchSeq_mkScenes_getElem? (u : Nat → String) (entries : List ScriptEntry)
    (j q : Nat) :
    (patchSeq u 0 (mkScenes 0 entries) j)[q]? = (entries[q]?).map (fun e =>
      { id := q, imagePrompt := e.image_prompt,
        narratorScript := e.narrator_script,
        imageUrl := if q < j then some (u q) else none }) := by
  rw [patchSeq_eq_map, List.getElem?_map, mkScenes_getElem?, Option.map_map]
  cases entries[q]? with
  | none => rfl
  | some e => by_cases hc : q < j <;> simp [hc]

theorem audioPatchSeq_mkScenes_getElem? (p u2 : Nat → String)
    (lines : List String) (j q : Nat) :
    (audioPatchSeq p u2 0 (mkScenesFromLines 0 lines) j)[q]? =
      (lines[q]?).map (fun line =>
        if q < j then
          { id := q, imagePrompt := p q, narratorScript := line,
            imageUrl := some (u2 q) }
        else
          { id := q, imagePrompt := "", narratorScript := line,
            imageUrl := none }) := by
  rw [audioPatchSeq_eq_map, List.getElem?_map, mkScenesFromLines_getElem?,
    Option.map_map]
  cases lines[q]? with
  | none => rfl
  | some line => by_cases hc : q < j <;> simp [hc]

/-- C6: a mid-pipeline failure aborts the rest of the run, sets the error
message, clears loading, keeps every scene populated before the failure and
leaves later scenes' images null; in the audio-mode app the audio URL is
discarded as well. Topic mode: with a k-entry script response and the image
call failing on scene j, scene q keeps its generated imageUrl for q < j and
stays null from j on. Audio mode: with the per-scene prompt or image call
failing on scene j2, scenes before j2 are fully populated, no scene from j2
on has an image, and the audio reference is discarded. -/
theorem c6_failure_aborts_pipeline
    (s : AppState) (topic : String) (k j q : Nat)
    (entries : List ScriptEntry) (img : Nat → Except String String)
    (u : Nat → String) (msg : String)
    (t : AudioState) (content url pj msg2 : String)
    (pr img2 : Nat → Except String String) (p u2 : Nat → String)
    (j2 q2 qa : Nat)
    (ht : ¬ jsTrim topic = "") (hk : entries.length = k) (hj : j < k)
    (hok : ∀ t2, t2 < j → img t2 = .ok (u t2)) (hfail : img j = .error msg)
    (hfiles : ¬ (t.scriptFile = none ∨ t.audioFile = none))
    (hlines : j2 < (splitLines content).length)
    (hok2 : ∀ t2, t2 < j2 → pr t2 = .ok (p t2) ∧ img2 t2 = .ok (u2 t2))
    (hfail2 : pr j2 = .error msg2 ∨ (pr j2 = .ok pj ∧ img2 j2 = .error msg2))
    (hq2 : q2 < j2) (hqa : j2 ≤ qa) :
    ((handleGenerate s topic k (.ok entries) img).error = some msg ∧
      (handleGenerate s topic k (.ok entries) img).isLoading = false ∧
      (handleGenerate s topic k (.ok entries) img).scenes[q]? =
        (entries[q]?).map (fun e =>
          { id := q, imagePrompt := e.image_prompt,
            narratorScript := e.narrator_script,
            imageUrl := if q < j then some (u q) else none })) ∧
    ((handleCreateStoryboard t content url pr img2).error = some msg2 ∧
      (handleCreateStoryboard t content url pr img2).isLoading = false ∧
      (handleCreateStoryboard t content url pr img2).audioUrl = none ∧
      (handleCreateStoryboard t content url pr img2).scenes[q2]? =
        ((splitLines content)[q2]?).map (fun line =>
          { id := q2, imagePrompt := p q2, narratorScript := line,
            imageUrl := some (u2 q2) }) ∧
      ((handleCreateStoryboard t content url pr img2).scenes[qa]?).map
          Scene.imageUrl =
        ((splitLines content)[qa]?).map (fun _ => none)) := by
  have hmain : handleGenerate s topic k (.ok entries) img =
      { s with scenes := patchSeq u 0 (mkScenes 0 entries) j,
               isLoading := false, error := some msg,
               currentSceneIndex := 0, isPlaying := false } := by
    simp only [handleGenerate, if_neg ht]
    rw [genImagesLoop_fail img u msg j (mkScenes 0 entries).length 0 _
      (by intro t2 ht2; simpa using hok t2 ht2)
      (by simpa using hfail)
      (by rw [mkScenes_length]; omega)]
  have hlne : ¬ splitLines content = [] := by
    intro he; rw [he] at hlines; simp at hlines
  refine ⟨⟨by rw [hmain], by rw [hmain], ?_⟩, ?_⟩
  · rw [hmain]
    exact patchSeq_mkScenes_getElem? u entries j q
  · rcases hfail2 with hpr | ⟨hpr, him⟩
    · have hmain2 : handleCreateStoryboard t content url pr img2 =
          { (resetBoard t) with
            scenes := audioPatchSeq p u2 0
              (mkScenesFromLines 0 (splitLines content)) j2,
            audioUrl := none, isLoading := false, error := some msg2 } := by
        simp only [handleCreateStoryboard, if_neg hfiles, if_neg hlne]
        rw [storyboardLoop_fail_pr pr img2 p u2 msg2 j2
          (mkScenesFromLines 0 (splitLines content)).length 0 _
          (by intro t2 ht2; simpa using hok2 t2 ht2)
          (by simpa using hpr)
          (by rw [mkScenesFromLines_length]; omega)]
        rfl
      refine ⟨by rw [hmain2], by rw [hmain2], by rw [hmain2], ?_, ?_⟩
      · rw [hmain2]
        show (audioPatchSeq p u2 0
          (mkScenesFromLines 0 (splitLines content)) j2)[q2]? = _
        rw [audioPatchSeq_mkScenes_getElem?]
        cases (splitLines content)[q2]? <;> simp [hq2]
      · rw [hmain2]
        show ((audioPatchSeq p u2 0
          (mkScenesFromLines 0 (splitLines content)) j2)[qa]?).map Scene.imageUrl = _
        rw [audioPatchSeq_mkScenes_getElem?]
        cases (splitLines content)[qa]? <;>
          simp [show ¬ qa < j2 from by omega]
    · have hmain2 : handleCreateStoryboard t content url pr img2 =
          { (resetBoard t) with
            scenes := patchPrompt (audioPatchSeq p u2 0
              (mkScenesFromLines 0 (splitLines content)) j2) j2 pj,
            audioUrl := none, isLoading := false, error := some msg2 } := by
        simp only [handleCreateStoryboard, if_neg hfiles, if_neg hlne]
        rw [storyboardLoop_fail_img pr img2 p u2 pj msg2 j2
          (mkScenesFromLines 0 (splitLines content)).length 0 _
          (by intro t2 ht2; simpa using hok2 t2 ht2)
          (by simpa using hpr)
          (by simpa using him)
          (by rw [mkScenesFromLines_length]; omega)]
        rw [Nat.zero_add]
        rfl
      refine ⟨by rw [hmain2], by rw [hmain2], by rw [hmain2], ?_, ?_⟩
      · rw [hmain2]
        show (patchPrompt (audioPatchSeq p u2 0
          (mkScenesFromLines 0 (splitLines content)) j2) j2 pj)[q2]? = _
        rw [patchPrompt_getElem?, audioPatchSeq_mkScenes_getElem?, Option.map_map]
        cases (splitLines content)[q2]? <;>
          simp [hq2, show q2 ≠ j2 from by omega]
      · rw [hmain2]
        show ((patchPrompt (audioPatchSeq p u2 0
          (mkScenesFromLines 0 (splitLines content)) j2) j2 pj)[qa]?).map
            Scene.imageUrl = _
        rw [patchPrompt_getElem?, audioPatchSeq_mkScenes_getElem?, Option.map_map]
        cases (splitLines content)[qa]? with
        | none => rfl
        | some line =>
            by_cases hqj : qa = j2 <;>
              simp [show ¬ qa < j2 from by omega, hqj]

/-- Witness for C6 — the spec's end-to-end numbers: a 4-entry script with
the image call failing on scene 2 leaves scenes 0 and 1 populated and
scenes 2–3 null with the error set and loading false; on the audio side a
3-line script with the image call failing on scene 1 leaves scene 0
populated, later scenes without images, and the audio URL discarded. -/
theorem c6_failure_aborts_pipeline_witness :
    ¬ jsTrim "ocean" = "" ∧
    [sampleEntry, sampleEntry, sampleEntry, sampleEntry].length = 4 ∧
    2 < 4 ∧
    (∀ t2, t2 < 2 → imgFailAt2 t2 = .ok "u") ∧
    imgFailAt2 2 = .error imageFailMsg ∧
    ¬ (c6Board.scriptFile = none ∨ c6Board.audioFile = none) ∧
    1 < (splitLines "a\nb\nc").length ∧
    (∀ t2, t2 < 1 →
      (fun _ : Nat => (Except.ok "p" : Except String String)) t2 = .ok "p" ∧
      imgFailAt1 t2 = .ok "w") ∧
    ((fun _ : Nat => (Except.ok "p" : Except String String)) 1 = .error imageFailMsg ∨
      ((fun _ : Nat => (Except.ok "p" : Except String String)) 1 = .ok "p" ∧
        imgFailAt1 1 = .error imageFailMsg)) ∧
    (((handleGenerate emptyApp "ocean" 4
          (.ok [sampleEntry, sampleEntry, sampleEntry, sampleEntry])
          imgFailAt2).error = some imageFailMsg ∧
      (handleGenerate emptyApp "ocean" 4
          (.ok [sampleEntry, sampleEntry, sampleEntry, sampleEntry])
          imgFailAt2).isLoading = false ∧
      (handleGenerate emptyApp "ocean" 4
          (.ok [sampleEntry, sampleEntry, sampleEntry, sampleEntry])
          imgFailAt2).scenes[1]? =
        (([sampleEntry, sampleEntry, sampleEntry, sampleEntry] :
            List ScriptEntry)[1]?).map (fun e =>
          { id := 1, imagePrompt := e.image_prompt,
            narratorScript := e.narrator_script,
            imageUrl := if 1 < 2 then some "u" else none })) ∧
    ((handleCreateStoryboard c6Board "a\nb\nc" "blob:b"
          (fun _ => .ok "p") imgFailAt1).error = some imageFailMsg ∧
      (handleCreateStoryboard c6Board "a\nb\nc" "blob:b"
          (fun _ => .ok "p") imgFailAt1).isLoading = false ∧
      (handleCreateStoryboard c6Board "a\nb\nc" "blob:b"
          (fun _ => .ok "p") imgFailAt1).audioUrl = none ∧
      (handleCreateStoryboard c6Board "a\nb\nc" "blob:b"
          (fun _ => .ok "p") imgFailAt1).scenes[0]? =
        ((splitLines "a\nb\nc")[0]?).map (fun line =>
          { id := 0, imagePrompt := "p", narratorScript := line,
            imageUrl := some "w" }) ∧
      ((handleCreateStoryboard c6Board "a\nb\nc" "blob:b"
          (fun _ => .ok "p") imgFailAt1).scenes[1]?).map Scene.imageUrl =
        ((splitLines "a\nb\nc")[1]?).map (fun _ => none))) ∧
    (handleGenerate emptyApp "ocean" 4
        (.ok [sampleEntry, sampleEntry, sampleEntry, sampleEntry])
        imgFailAt2).scenes.map Scene.imageUrl =
      [some "u", some "u", none, none] ∧
    (handleCreateStoryboard c6Board "a\nb\nc" "blob:b"
        (fun _ => .ok "p") imgFailAt1).scenes.map Scene.imageUrl =
      [some "w", none, none] :=
  ⟨by decide, by decide, by decide, by decide, by decide, by decide, by decide,
   by decide, Or.inr (by decide),
   c6_failure_aborts_pipeline emptyApp "ocean" 4 2 1
     [sampleEntry, sampleEntry, sampleEntry, sampleEntry] imgFailAt2
     (fun _ => "u") imageFailMsg c6Board "a\nb\nc" "blob:b" "p" imageFailMsg
     (fun _ => .ok "p") imgFailAt1 (fun _ => "p") (fun _ => "w") 1 0 1
     (by decide) (by decide) (by decide) (by decide) (by decide) (by decide)
     (by decide) (by decide) (Or.inr (by decide)) (by decide) (by decide),
   by decide, by decide⟩

end ShortVideo
